import Mathlib

/-!
Shallow embedding of `variable.go` from the go-tfe repository: the Variable
resource client (List, Create, Update, Delete) over a Transport collaborator.
Pure Go functions become Lean functions; the two calls a Go operation makes to
the client runtime (`newRequest`, `do`) are recorded in an explicit event trace
so that "no network call occurs" becomes a statement about the trace.
-/

namespace Tfe

/-- CategoryType represents a category type (`env` or `terraform`),
from `variable.go`. -/
inductive CategoryType
  | env
  | terraform
  deriving DecidableEq, Repr

/-- Modelled from the spec: the `Workspace` type is declared elsewhere in the
repository (not under src/); §3 describes it only as "a reference (by
identity, not ownership) to the owning workspace", so it is modelled by its
identifying name. -/
structure Workspace where
  name : String
  deriving DecidableEq, Repr

/-- Modelled from the spec: `ListOptions` is declared elsewhere in the
repository (not under src/); §4.1 describes it as "optional pagination
parameters (page number, page size)". -/
structure ListOptions where
  pageNumber : Option Int
  pageSize : Option Int
  deriving DecidableEq, Repr

/-- Variable represents a Terraform Enterprise variable, from `variable.go`.
Go's `*Workspace` relation is a nullable pointer, embedded as an `Option`. -/
structure Variable where
  ID : String
  Key : String
  Value : String
  Category : CategoryType
  HCL : Bool
  Sensitive : Bool
  workspace : Option Workspace
  deriving DecidableEq, Repr

/-- VariableListOptions from `variable.go`: embedded `ListOptions` plus the
two nullable string filters (`*string` becomes `Option String`). -/
structure VariableListOptions where
  listOptions : ListOptions
  Organization : Option String
  workspaceName : Option String
  deriving DecidableEq, Repr

/-- VariableCreateOptions from `variable.go`. Nullable fields (`*string`,
`*CategoryType`, `*bool`, `*Workspace`) become `Option`s; the internal `ID`
field is a plain string as in the source. -/
structure VariableCreateOptions where
  ID : String
  Key : Option String
  Value : Option String
  Category : Option CategoryType
  HCL : Option Bool
  Sensitive : Option Bool
  workspace : Option Workspace
  deriving DecidableEq, Repr

/-- VariableUpdateOptions from `variable.go`: every data field nullable, plus
the internal `ID` string. -/
structure VariableUpdateOptions where
  ID : String
  Key : Option String
  Value : Option String
  Category : Option CategoryType
  HCL : Option Bool
  Sensitive : Option Bool
  deriving DecidableEq, Repr

/-- Modelled from the spec: `validString` is declared elsewhere in the
repository (not under src/); §4.1 and §7 describe it as the
"non-empty-string check" on a nullable string ("absent or empty" fails). -/
def validString : Option String → Bool
  | none => false
  | some s => !(s = "")

/-- Modelled from the spec: `validStringID` is declared elsewhere in the
repository (not under src/); §4.1 describes it as a "structural identifier
check (non-empty, and matching the server's expected identifier shape)" and
§8 says an identifier "containing disallowed characters" fails, so it is
modelled as: non-empty and every character alphanumeric or one of
`-`, `_`, `.`. -/
def validStringID (s : String) : Bool :=
  !(s = "") && s.data.all (fun ch => ch.isAlphanum || ch == '-' || ch == '_' || ch == '.')

/-- `VariableListOptions.valid` from `variable.go`: Organization first, then
Workspace; `some msg` embeds a returned `error`, `none` embeds `nil`. -/
def VariableListOptions.valid (o : VariableListOptions) : Option String :=
  if !(validString o.Organization) then some "Organization is required"
  else if !(validString o.workspaceName) then some "Workspace is required"
  else none

/-- `VariableCreateOptions.valid` from `variable.go`: Key, Value, Category,
Workspace in order. -/
def VariableCreateOptions.valid (o : VariableCreateOptions) : Option String :=
  if !(validString o.Key) then some "Key is required"
  else if !(validString o.Value) then some "Value is required"
  else if o.Category = none then some "Category is required"
  else if o.workspace = none then some "Workspace is required"
  else none

/-- The structured payload an operation hands to the request builder:
`nil` for Delete, otherwise the (possibly rewritten) options value. -/
inductive RequestBody
  | noBody
  | listOpts (o : VariableListOptions)
  | createOpts (o : VariableCreateOptions)
  | updateOpts (o : VariableUpdateOptions)
  deriving DecidableEq, Repr

/-- An HTTP-style request as produced by the Transport's request builder
(spec §6): a method token, a resource path, and the payload. -/
structure Request where
  method : String
  path : String
  body : RequestBody
  deriving DecidableEq, Repr

/-- Modelled from the spec: the Transport collaborator (§6), declared
elsewhere in the repository (not under src/). `buildErr` is the failure
behaviour of the request builder (`newRequest`); the three executors embed
`do` at the three expected response shapes (ordered sequence, single record,
no decoded body), each returning a Go-style (result, error) pair. -/
structure Client where
  buildErr : String → String → RequestBody → Option String
  doList : Request → List Variable × Option String
  doSingle : Request → Option Variable × Option String
  doNoBody : Request → Option String

/-- `newRequest` per spec §6: produces the request from the given method,
path and payload, unless the builder fails. -/
def Client.newRequest (c : Client) (method path : String) (body : RequestBody) :
    Except String Request :=
  match c.buildErr method path body with
  | some e => Except.error e
  | none => Except.ok ⟨method, path, body⟩

/-- One observable interaction with the client runtime: a `newRequest`
invocation (`built`) or a `do` invocation (`network`). -/
inductive Event
  | built (method path : String) (body : RequestBody)
  | network (req : Request)
  deriving DecidableEq, Repr

/-- The payload carried by an event. -/
def Event.sentBody : Event → RequestBody
  | .built _ _ b => b
  | .network r => r.body

/-- The path carried by an event. -/
def Event.sentPath : Event → String
  | .built _ p _ => p
  | .network r => r.path

/-- Outcome of `List`: the slice result (Go's nil slice is `[]`), the error,
and the trace of runtime interactions. -/
structure ListOutcome where
  result : List Variable
  err : Option String
  trace : List Event
  deriving DecidableEq, Repr

/-- Outcome of `Create`/`Update`: the `*Variable` result, the error, and the
trace. -/
structure VarOutcome where
  result : Option Variable
  err : Option String
  trace : List Event
  deriving DecidableEq, Repr

/-- Outcome of `Delete`: the error and the trace (no decoded body). -/
structure DeleteOutcome where
  err : Option String
  trace : List Event
  deriving DecidableEq, Repr

/-- The `for _, v := range result { vs = append(vs, v) }` loop in `List`,
rebuilding the slice by successive appends starting from the nil slice. -/
def appendLoop (result : List Variable) : List Variable :=
  result.foldl (fun vs v => vs ++ [v]) []

/-- `Variables.List` from `variable.go`: validate, build a GET `vars`
request carrying the options as query payload, execute, rebuild the slice. -/
def VariablesList (c : Client) (options : VariableListOptions) : ListOutcome :=
  match options.valid with
  | some err => ⟨[], some err, []⟩
  | none =>
    match c.newRequest "GET" "vars" (RequestBody.listOpts options) with
    | Except.error e => ⟨[], some e,
        [Event.built "GET" "vars" (RequestBody.listOpts options)]⟩
    | Except.ok req =>
      match (c.doList req).2 with
      | some e => ⟨[], some e,
          [Event.built "GET" "vars" (RequestBody.listOpts options), Event.network req]⟩
      | none => ⟨appendLoop (c.doList req).1, none,
          [Event.built "GET" "vars" (RequestBody.listOpts options), Event.network req]⟩

/-- `Variables.Create` from `variable.go`: validate, clear the
user-provided ID on the local copy, build a POST `vars` request, execute. -/
def VariablesCreate (c : Client) (options0 : VariableCreateOptions) : VarOutcome :=
  match options0.valid with
  | some err => ⟨none, some err, []⟩
  | none =>
    match c.newRequest "POST" "vars" (RequestBody.createOpts { options0 with ID := "" }) with
    | Except.error e => ⟨none, some e,
        [Event.built "POST" "vars" (RequestBody.createOpts { options0 with ID := "" })]⟩
    | Except.ok req =>
      match (c.doSingle req).2 with
      | some e => ⟨none, some e,
          [Event.built "POST" "vars" (RequestBody.createOpts { options0 with ID := "" }),
           Event.network req]⟩
      | none => ⟨(c.doSingle req).1, none,
          [Event.built "POST" "vars" (RequestBody.createOpts { options0 with ID := "" }),
           Event.network req]⟩

/-- `Variables.Update` from `variable.go`: check the identifier, force the
path ID into the local copy of the options, build a PATCH `vars/{id}`
request, execute. -/
def VariablesUpdate (c : Client) (variableID : String)
    (options0 : VariableUpdateOptions) : VarOutcome :=
  if !(validStringID variableID) then
    ⟨none, some "Invalid value for variable ID", []⟩
  else
    match c.newRequest "PATCH" ("vars/" ++ variableID)
        (RequestBody.updateOpts { options0 with ID := variableID }) with
    | Except.error e => ⟨none, some e,
        [Event.built "PATCH" ("vars/" ++ variableID)
          (RequestBody.updateOpts { options0 with ID := variableID })]⟩
    | Except.ok req =>
      match (c.doSingle req).2 with
      | some e => ⟨none, some e,
          [Event.built "PATCH" ("vars/" ++ variableID)
            (RequestBody.updateOpts { options0 with ID := variableID }),
           Event.network req]⟩
      | none => ⟨(c.doSingle req).1, none,
          [Event.built "PATCH" ("vars/" ++ variableID)
            (RequestBody.updateOpts { options0 with ID := variableID }),
           Event.network req]⟩

/-- `Variables.Delete` from `variable.go`: check the identifier, build a
DELETE `vars/{id}` request with nil payload, execute without decoding. -/
def VariablesDelete (c : Client) (variableID : String) : DeleteOutcome :=
  if !(validStringID variableID) then
    ⟨some "Invalid value for variable ID", []⟩
  else
    match c.newRequest "DELETE" ("vars/" ++ variableID) RequestBody.noBody with
    | Except.error e => ⟨some e,
        [Event.built "DELETE" ("vars/" ++ variableID) RequestBody.noBody]⟩
    | Except.ok req =>
      ⟨c.doNoBody req,
        [Event.built "DELETE" ("vars/" ++ variableID) RequestBody.noBody,
         Event.network req]⟩

/-- Go call-by-value parameter passing: the callee receives a copy of the
caller's struct and any write inside the callee hits only that copy, so the
caller's binding after the call is the unchanged original. -/
def goCallByValue {α β : Type} (f : α → β) (x : α) : β × α := (f x, x)

/-- A trivially succeeding Transport, used to evaluate the operations at
concrete inputs. -/
def testClient : Client where
  buildErr := fun _ _ _ => none
  doList := fun _ => ([], none)
  doSingle := fun _ => (none, none)
  doNoBody := fun _ => none

/-! Shared helper lemmas about the traces and payloads the operations
produce; the claim theorems build on these. -/

/-- `validString` succeeds exactly on a present, non-empty string. -/
theorem validString_iff (v : Option String) :
    validString v = true ↔ ∃ s, v = some s ∧ s ≠ "" := by
  cases v <;> simp [validString]

/-- Every event in a successful-validation `Create` trace carries the
rewritten options with the ID cleared. -/
theorem create_trace_body (c : Client) (o : VariableCreateOptions)
    (h : o.valid = none) :
    ∀ ev ∈ (VariablesCreate c o).trace,
      ev.sentBody = RequestBody.createOpts { o with ID := "" } := by
  intro ev hev
  unfold VariablesCreate Client.newRequest at hev
  rw [h] at hev
  cases hb : c.buildErr "POST" "vars" (RequestBody.createOpts { o with ID := "" }) <;>
    rw [hb] at hev <;> simp only [] at hev
  · cases hd : (c.doSingle ⟨"POST", "vars", RequestBody.createOpts { o with ID := "" }⟩).2 <;>
      rw [hd] at hev <;> simp at hev
    · rcases hev with hev | hev <;> subst hev <;> rfl
    · rcases hev with hev | hev <;> subst hev <;> rfl
  · simp at hev
    subst hev
    rfl

/-- Every event in a valid-identifier `Update` trace carries the path
`vars/{id}` and the rewritten options with the ID forced to `id`. -/
theorem update_trace_body (c : Client) (id : String)
    (o : VariableUpdateOptions) (h : validStringID id = true) :
    ∀ ev ∈ (VariablesUpdate c id o).trace,
      ev.sentPath = "vars/" ++ id ∧
      ev.sentBody = RequestBody.updateOpts { o with ID := id } := by
  intro ev hev
  unfold VariablesUpdate Client.newRequest at hev
  rw [h] at hev
  simp only [Bool.not_true, if_neg] at hev
  cases hb : c.buildErr "PATCH" ("vars/" ++ id) (RequestBody.updateOpts { o with ID := id }) <;>
    rw [hb] at hev <;> simp only [] at hev
  · cases hd : (c.doSingle ⟨"PATCH", "vars/" ++ id, RequestBody.updateOpts { o with ID := id }⟩).2 <;>
      rw [hd] at hev <;> simp at hev
    · rcases hev with hev | hev <;> subst hev <;> exact ⟨rfl, rfl⟩
    · rcases hev with hev | hev <;> subst hev <;> exact ⟨rfl, rfl⟩
  · simp at hev
    subst hev
    exact ⟨rfl, rfl⟩

/-! The claims. -/

/-- C1: any input that fails local validation (List or Create options failing
`valid`, or an Update/Delete identifier failing `validStringID`) makes the
operation return the validation error with an empty interaction trace: no
`newRequest` invocation and no network call occurs on that path. -/
theorem c1_validation_short_circuits (c : Client)
    (lo : VariableListOptions) (co : VariableCreateOptions)
    (uo : VariableUpdateOptions) (uid did : String) (e1 e2 : String)
    (h1 : lo.valid = some e1) (h2 : co.valid = some e2)
    (h3 : validStringID uid = false) (h4 : validStringID did = false) :
    VariablesList c lo = ⟨[], some e1, []⟩ ∧
    VariablesCreate c co = ⟨none, some e2, []⟩ ∧
    VariablesUpdate c uid uo = ⟨none, some "Invalid value for variable ID", []⟩ ∧
    VariablesDelete c did = ⟨some "Invalid value for variable ID", []⟩ := by
  refine ⟨?_, ?_, ?_, ?_⟩
  · unfold VariablesList; rw [h1]
  · unfold VariablesCreate; rw [h2]
  · unfold VariablesUpdate; rw [h3]; rfl
  · unfold VariablesDelete; rw [h4]; rfl

/-- C1 witness: concrete invalid inputs for all four operations. -/
theorem c1_validation_short_circuits_witness :
    (VariableListOptions.mk ⟨none, none⟩ none none).valid =
      some "Organization is required" ∧
    (VariableCreateOptions.mk "x" none none none none none none).valid =
      some "Key is required" ∧
    validStringID "" = false ∧
    validStringID "a b" = false ∧
    (VariablesList testClient ⟨⟨none, none⟩, none, none⟩ =
        ⟨[], some "Organization is required", []⟩ ∧
      VariablesCreate testClient ⟨"x", none, none, none, none, none, none⟩ =
        ⟨none, some "Key is required", []⟩ ∧
      VariablesUpdate testClient "" ⟨"", none, none, none, none, none⟩ =
        ⟨none, some "Invalid value for variable ID", []⟩ ∧
      VariablesDelete testClient "a b" =
        ⟨some "Invalid value for variable ID", []⟩) :=
  ⟨by decide, by decide, by decide, by decide,
    c1_validation_short_circuits testClient _ _ ⟨"", none, none, none, none, none⟩
      "" "a b" _ _ (by decide) (by decide) (by decide) (by decide)⟩

/-- C2: List validation checks Organization before Workspace and returns one
error per call: an absent or empty Organization yields the
Organization-missing error regardless of Workspace, and a present non-empty
Organization with an absent or empty Workspace yields the Workspace-missing
error. -/
theorem c2_list_validation_order (o : VariableListOptions) :
    ((o.Organization = none ∨ o.Organization = some "") →
      o.valid = some "Organization is required") ∧
    (∀ s : String, o.Organization = some s → s ≠ "" →
      (o.workspaceName = none ∨ o.workspaceName = some "") →
      o.valid = some "Workspace is required") := by
  constructor
  · rintro (h | h) <;>
      simp [VariableListOptions.valid, validString, h]
  · rintro s hs hne (h | h) <;>
      simp [VariableListOptions.valid, validString, hs, hne, h]

/-- C2 witness: both filters absent hits the Organization error; present
Organization with empty Workspace hits the Workspace error. -/
theorem c2_list_validation_order_witness :
    ((VariableListOptions.mk ⟨none, none⟩ none none).Organization = none ∨
      (VariableListOptions.mk ⟨none, none⟩ none none).Organization = some "") ∧
    (VariableListOptions.mk ⟨none, none⟩ none none).valid =
      some "Organization is required" ∧
    (VariableListOptions.mk ⟨none, none⟩ (some "org") (some "")).valid =
      some "Workspace is required" :=
  ⟨Or.inl rfl,
    (c2_list_validation_order ⟨⟨none, none⟩, none, none⟩).1 (Or.inl rfl),
    (c2_list_validation_order ⟨⟨none, none⟩, some "org", some ""⟩).2 "org" rfl
      (by decide) (Or.inr rfl)⟩

/-- C3: Create validates Key, then Value, then Category, then Workspace,
naming the first failing field; Key and Value fail when absent or empty,
Category and Workspace only when absent; when all pass, validation
succeeds. -/
theorem c3_create_validation_order (o : VariableCreateOptions) :
    ((o.Key = none ∨ o.Key = some "") → o.valid = some "Key is required") ∧
    (validString o.Key = true → (o.Value = none ∨ o.Value = some "") →
      o.valid = some "Value is required") ∧
    (validString o.Key = true → validString o.Value = true →
      o.Category = none → o.valid = some "Category is required") ∧
    (validString o.Key = true → validString o.Value = true →
      o.Category ≠ none → o.workspace = none →
      o.valid = some "Workspace is required") ∧
    (validString o.Key = true → validString o.Value = true →
      o.Category ≠ none → o.workspace ≠ none → o.valid = none) := by
  refine ⟨?_, ?_, ?_, ?_, ?_⟩
  · rintro (h | h) <;>
      simp [VariableCreateOptions.valid, validString, h]
  · rintro hk (h | h) <;>
      rcases (validString_iff _).mp hk with ⟨s, hs, hne⟩ <;>
      simp [VariableCreateOptions.valid, validString, hs, hne, h]
  · intro hk hv hc
    simp [VariableCreateOptions.valid, hk, hv, hc]
  · intro hk hv hc hw
    simp [VariableCreateOptions.valid, hk, hv, hc, hw]
  · intro hk hv hc hw
    simp [VariableCreateOptions.valid, hk, hv, hc, hw]

/-- C3 witness: each of the four missing-field errors and a passing options
value, at concrete inputs. -/
theorem c3_create_validation_order_witness :
    (VariableCreateOptions.mk "" none (some "v") (some CategoryType.env) none none
        (some ⟨"w"⟩)).valid = some "Key is required" ∧
    (VariableCreateOptions.mk "" (some "k") (some "") (some CategoryType.env) none none
        (some ⟨"w"⟩)).valid = some "Value is required" ∧
    (VariableCreateOptions.mk "" (some "k") (some "v") none none none
        (some ⟨"w"⟩)).valid = some "Category is required" ∧
    (VariableCreateOptions.mk "" (some "k") (some "v") (some CategoryType.env) none none
        none).valid = some "Workspace is required" ∧
    (VariableCreateOptions.mk "" (some "k") (some "v") (some CategoryType.env) none none
        (some ⟨"w"⟩)).valid = none :=
  ⟨(c3_create_validation_order _).1 (Or.inl rfl),
    (c3_create_validation_order
        ⟨"", some "k", some "", some CategoryType.env, none, none, some ⟨"w"⟩⟩).2.1
      (by decide) (Or.inr rfl),
    (c3_create_validation_order
        ⟨"", some "k", some "v", none, none, none, some ⟨"w"⟩⟩).2.2.1
      (by decide) (by decide) rfl,
    (c3_create_validation_order
        ⟨"", some "k", some "v", some CategoryType.env, none, none, none⟩).2.2.2.1
      (by decide) (by decide) (by decide) rfl,
    (c3_create_validation_order
        ⟨"", some "k", some "v", some CategoryType.env, none, none, some ⟨"w"⟩⟩).2.2.2.2
      (by decide) (by decide) (by decide) (by decide)⟩

/-- Concrete List options used to evaluate the theorems. -/
def exListOpts : VariableListOptions := ⟨⟨none, none⟩, some "org", some "ws"⟩

/-- Concrete Create options with a caller-pre-set internal ID. -/
def exCreateOpts : VariableCreateOptions :=
  ⟨"user-set-id", some "k", some "v", some CategoryType.env, none, none, some ⟨"w"⟩⟩

/-- Concrete Update options with a caller-pre-set internal ID. -/
def exUpdateOpts : VariableUpdateOptions :=
  ⟨"other", some "nk", none, none, none, none⟩

/-- C4: for every Create options value that passes validation, every payload
handed to the Transport is the caller's options with the internal ID field
cleared to the empty string; the caller-supplied ID value never appears in an
outgoing request. -/
theorem c4_create_strips_caller_id (c : Client) (o : VariableCreateOptions)
    (h : o.valid = none) :
    ∀ ev ∈ (VariablesCreate c o).trace, ∀ o2 : VariableCreateOptions,
      ev.sentBody = RequestBody.createOpts o2 →
      o2 = { o with ID := "" } ∧ o2.ID = "" := by
  intro ev hev o2 hb
  have hbody := create_trace_body c o h ev hev
  rw [hb] at hbody
  injection hbody with h2
  exact ⟨h2, by rw [h2]⟩

/-- C4 witness: a concrete Create options value with pre-set ID
`user-set-id`; the payload in the trace has its ID cleared. -/
theorem c4_create_strips_caller_id_witness :
    exCreateOpts.valid = none ∧
    Event.built "POST" "vars" (RequestBody.createOpts { exCreateOpts with ID := "" })
        ∈ (VariablesCreate testClient exCreateOpts).trace ∧
    (({ exCreateOpts with ID := "" } : VariableCreateOptions) =
        { exCreateOpts with ID := "" } ∧
      ({ exCreateOpts with ID := "" } : VariableCreateOptions).ID = "") :=
  ⟨by decide, by decide,
    c4_create_strips_caller_id testClient exCreateOpts (by decide)
      (Event.built "POST" "vars" (RequestBody.createOpts { exCreateOpts with ID := "" }))
      (by decide) ({ exCreateOpts with ID := "" }) rfl⟩

/-- C5: for every identifier passing `validStringID` and every Update
options value, every payload handed to the Transport carries the path
`vars/{variableID}` and the options with the internal ID forced to
`variableID`, so the path segment and the payload ID coincide. -/
theorem c5_update_path_payload_consistency (c : Client) (id : String)
    (o : VariableUpdateOptions) (h : validStringID id = true) :
    (∀ ev ∈ (VariablesUpdate c id o).trace,
      ev.sentPath = "vars/" ++ id ∧
      ev.sentBody = RequestBody.updateOpts { o with ID := id }) ∧
    ({ o with ID := id } : VariableUpdateOptions).ID = id :=
  ⟨update_trace_body c id o h, rfl⟩

/-- C5 witness: a concrete valid identifier and Update options with a
conflicting caller-set ID. -/
theorem c5_update_path_payload_consistency_witness :
    validStringID "var-123" = true ∧
    ((∀ ev ∈ (VariablesUpdate testClient "var-123" exUpdateOpts).trace,
        ev.sentPath = "vars/" ++ "var-123" ∧
        ev.sentBody = RequestBody.updateOpts { exUpdateOpts with ID := "var-123" }) ∧
      ({ exUpdateOpts with ID := "var-123" } : VariableUpdateOptions).ID = "var-123") :=
  ⟨by decide,
    c5_update_path_payload_consistency testClient "var-123" exUpdateOpts (by decide)⟩

/-- C6: each operation issues the method and path of the spec's table: List
GET `vars`, Create POST `vars`, Update PATCH `vars/{id}`, Delete DELETE
`vars/{id}` with nil payload; Delete decodes no body, returning exactly the
executor's completion status. -/
theorem c6_methods_and_paths (c : Client) (lo : VariableListOptions)
    (co : VariableCreateOptions) (uo : VariableUpdateOptions) (uid did : String)
    (hl : lo.valid = none) (hc : co.valid = none)
    (hu : validStringID uid = true) (hdel : validStringID did = true) :
    (VariablesList c lo).trace.head? =
      some (Event.built "GET" "vars" (RequestBody.listOpts lo)) ∧
    (VariablesCreate c co).trace.head? =
      some (Event.built "POST" "vars" (RequestBody.createOpts { co with ID := "" })) ∧
    (VariablesUpdate c uid uo).trace.head? =
      some (Event.built "PATCH" ("vars/" ++ uid)
        (RequestBody.updateOpts { uo with ID := uid })) ∧
    (VariablesDelete c did).trace.head? =
      some (Event.built "DELETE" ("vars/" ++ did) RequestBody.noBody) ∧
    (c.buildErr "DELETE" ("vars/" ++ did) RequestBody.noBody = none →
      VariablesDelete c did =
        ⟨c.doNoBody ⟨"DELETE", "vars/" ++ did, RequestBody.noBody⟩,
         [Event.built "DELETE" ("vars/" ++ did) RequestBody.noBody,
          Event.network ⟨"DELETE", "vars/" ++ did, RequestBody.noBody⟩]⟩) := by
  refine ⟨?_, ?_, ?_, ?_, ?_⟩
  · unfold VariablesList Client.newRequest
    rw [hl]
    cases hb : c.buildErr "GET" "vars" (RequestBody.listOpts lo) <;> simp only []
    · cases hdo : (c.doList ⟨"GET", "vars", RequestBody.listOpts lo⟩).2 <;> rfl
    · rfl
  · unfold VariablesCreate Client.newRequest
    rw [hc]
    cases hb : c.buildErr "POST" "vars" (RequestBody.createOpts { co with ID := "" }) <;>
      simp only []
    · cases hdo : (c.doSingle ⟨"POST", "vars",
          RequestBody.createOpts { co with ID := "" }⟩).2 <;> rfl
    · rfl
  · unfold VariablesUpdate Client.newRequest
    rw [hu]
    simp only [Bool.not_true, if_neg]
    cases hb : c.buildErr "PATCH" ("vars/" ++ uid)
        (RequestBody.updateOpts { uo with ID := uid }) <;> simp only []
    · cases hdo : (c.doSingle ⟨"PATCH", "vars/" ++ uid,
          RequestBody.updateOpts { uo with ID := uid }⟩).2 <;> rfl
    · rfl
  · unfold VariablesDelete Client.newRequest
    rw [hdel]
    simp only [Bool.not_true, if_neg]
    cases hb : c.buildErr "DELETE" ("vars/" ++ did) RequestBody.noBody <;> rfl
  · intro hbE
    unfold VariablesDelete Client.newRequest
    rw [hdel]
    simp only [Bool.not_true, if_neg]
    rw [hbE]
    rfl

/-- C6 witness: concrete valid inputs for all four operations. -/
theorem c6_methods_and_paths_witness :
    exListOpts.valid = none ∧ exCreateOpts.valid = none ∧
    validStringID "var-1" = true ∧ validStringID "var-2" = true ∧
    ((VariablesList testClient exListOpts).trace.head? =
        some (Event.built "GET" "vars" (RequestBody.listOpts exListOpts)) ∧
      (VariablesCreate testClient exCreateOpts).trace.head? =
        some (Event.built "POST" "vars"
          (RequestBody.createOpts { exCreateOpts with ID := "" })) ∧
      (VariablesUpdate testClient "var-1" exUpdateOpts).trace.head? =
        some (Event.built "PATCH" ("vars/" ++ "var-1")
          (RequestBody.updateOpts { exUpdateOpts with ID := "var-1" })) ∧
      (VariablesDelete testClient "var-2").trace.head? =
        some (Event.built "DELETE" ("vars/" ++ "var-2") RequestBody.noBody) ∧
      (testClient.buildErr "DELETE" ("vars/" ++ "var-2") RequestBody.noBody = none →
        VariablesDelete testClient "var-2" =
          ⟨testClient.doNoBody ⟨"DELETE", "vars/" ++ "var-2", RequestBody.noBody⟩,
           [Event.built "DELETE" ("vars/" ++ "var-2") RequestBody.noBody,
            Event.network ⟨"DELETE", "vars/" ++ "var-2", RequestBody.noBody⟩]⟩)) :=
  ⟨by decide, by decide, by decide, by decide,
    c6_methods_and_paths testClient exListOpts exCreateOpts exUpdateOpts "var-1" "var-2"
      (by decide) (by decide) (by decide) (by decide)⟩

/-- C7: on any path with a non-nil error, the result is the zero value: List
returns the nil slice, Create and Update return the nil Variable pointer;
no outcome pairs a non-zero result with a non-nil error. -/
theorem c7_error_implies_zero_result (c : Client) (lo : VariableListOptions)
    (co : VariableCreateOptions) (uo : VariableUpdateOptions) (uid : String) :
    ((VariablesList c lo).err ≠ none → (VariablesList c lo).result = []) ∧
    ((VariablesCreate c co).err ≠ none → (VariablesCreate c co).result = none) ∧
    ((VariablesUpdate c uid uo).err ≠ none → (VariablesUpdate c uid uo).result = none) := by
  refine ⟨?_, ?_, ?_⟩
  · unfold VariablesList Client.newRequest
    cases hv : lo.valid <;> simp only []
    · cases hb : c.buildErr "GET" "vars" (RequestBody.listOpts lo) <;> simp only []
      · cases hdo : (c.doList ⟨"GET", "vars", RequestBody.listOpts lo⟩).2 <;> simp
      · simp
    · simp
  · unfold VariablesCreate Client.newRequest
    cases hv : co.valid <;> simp only []
    · cases hb : c.buildErr "POST" "vars" (RequestBody.createOpts { co with ID := "" }) <;>
        simp only []
      · cases hdo : (c.doSingle ⟨"POST", "vars",
            RequestBody.createOpts { co with ID := "" }⟩).2 <;> simp
      · simp
    · simp
  · unfold VariablesUpdate Client.newRequest
    cases hid : validStringID uid <;> simp only [Bool.not_true, Bool.not_false, if_neg, if_pos]
    · simp
    · cases hb : c.buildErr "PATCH" ("vars/" ++ uid)
          (RequestBody.updateOpts { uo with ID := uid }) <;> simp only []
      · cases hdo : (c.doSingle ⟨"PATCH", "vars/" ++ uid,
            RequestBody.updateOpts { uo with ID := uid }⟩).2 <;> simp
      · simp

/-- C7 witness: a List call failing validation has a non-nil error and the
nil-slice result. -/
theorem c7_error_implies_zero_result_witness :
    (VariablesList testClient ⟨⟨none, none⟩, none, none⟩).err ≠ none ∧
    (VariablesList testClient ⟨⟨none, none⟩, none, none⟩).result = [] :=
  ⟨by decide,
    (c7_error_implies_zero_result testClient ⟨⟨none, none⟩, none, none⟩
        exCreateOpts exUpdateOpts "var-1").1 (by decide)⟩

/-- C8: when List's options pass validation and the Transport succeeds with
zero variables, List returns the empty sequence and a nil error. -/
theorem c8_empty_list_success (c : Client) (o : VariableListOptions)
    (hv : o.valid = none)
    (hb : c.buildErr "GET" "vars" (RequestBody.listOpts o) = none)
    (hdo : c.doList ⟨"GET", "vars", RequestBody.listOpts o⟩ = ([], none)) :
    VariablesList c o =
      ⟨[], none,
        [Event.built "GET" "vars" (RequestBody.listOpts o),
         Event.network ⟨"GET", "vars", RequestBody.listOpts o⟩]⟩ := by
  unfold VariablesList Client.newRequest
  rw [hv]
  simp only []
  rw [hb]
  simp only []
  rw [hdo]
  rfl

/-- C8 witness: the trivial Transport returns zero variables and List
succeeds with the empty sequence. -/
theorem c8_empty_list_success_witness :
    exListOpts.valid = none ∧
    testClient.buildErr "GET" "vars" (RequestBody.listOpts exListOpts) = none ∧
    testClient.doList ⟨"GET", "vars", RequestBody.listOpts exListOpts⟩ = ([], none) ∧
    VariablesList testClient exListOpts =
      ⟨[], none,
        [Event.built "GET" "vars" (RequestBody.listOpts exListOpts),
         Event.network ⟨"GET", "vars", RequestBody.listOpts exListOpts⟩]⟩ :=
  ⟨by decide, rfl, rfl,
    c8_empty_list_success testClient exListOpts (by decide) rfl rfl⟩

/-- The append loop of `List` rebuilds exactly its input sequence. -/
theorem appendLoop_eq (l : List Variable) : appendLoop l = l := by
  have h : ∀ acc : List Variable,
      List.foldl (fun vs v => vs ++ [v]) acc l = acc ++ l := by
    induction l with
    | nil => intro acc; simp
    | cons x xs ih => intro acc; simp [List.foldl, ih]
  simpa [appendLoop] using h []

/-- C9: a successful List returns element-for-element the sequence decoded
from the Transport's response, in the same order and length: no sorting,
filtering, deduplication or reordering. -/
theorem c9_list_returns_decoded_sequence (c : Client) (o : VariableListOptions)
    (vs : List Variable) (hv : o.valid = none)
    (hb : c.buildErr "GET" "vars" (RequestBody.listOpts o) = none)
    (hdo : c.doList ⟨"GET", "vars", RequestBody.listOpts o⟩ = (vs, none)) :
    (VariablesList c o).result = vs ∧ (VariablesList c o).err = none := by
  have heq : VariablesList c o =
      ⟨appendLoop vs, none,
        [Event.built "GET" "vars" (RequestBody.listOpts o),
         Event.network ⟨"GET", "vars", RequestBody.listOpts o⟩]⟩ := by
    unfold VariablesList Client.newRequest
    rw [hv]
    simp only []
    rw [hb]
    simp only []
    rw [hdo]
  rw [heq]
  exact ⟨appendLoop_eq vs, rfl⟩

/-- A two-element server response used to evaluate C9. -/
def exServerVars : List Variable :=
  [⟨"var-b", "kb", "vb", CategoryType.env, false, true, none⟩,
   ⟨"var-a", "ka", "va", CategoryType.terraform, true, false, none⟩]

/-- A Transport whose List executor returns two variables in a fixed
(unsorted) order. -/
def twoVarClient : Client where
  buildErr := fun _ _ _ => none
  doList := fun _ => (exServerVars, none)
  doSingle := fun _ => (none, none)
  doNoBody := fun _ => none

/-- C9 witness: the two-variable response comes back unchanged, order
included. -/
theorem c9_list_returns_decoded_sequence_witness :
    exListOpts.valid = none ∧
    twoVarClient.doList ⟨"GET", "vars", RequestBody.listOpts exListOpts⟩ =
      (exServerVars, none) ∧
    ((VariablesList twoVarClient exListOpts).result = exServerVars ∧
      (VariablesList twoVarClient exListOpts).err = none) :=
  ⟨by decide, rfl,
    c9_list_returns_decoded_sequence twoVarClient exListOpts exServerVars
      (by decide) rfl rfl⟩

/-- C10: Create and Update receive the options by value, so the internal ID
overwrite is invisible to the caller, whose options value is unchanged by
the call; moreover, when the caller's ID disagrees with the forced value,
the caller's exact options value is never the payload of any issued
request. -/
theorem c10_options_passed_by_value (c : Client) (co : VariableCreateOptions)
    (uid : String) (uo : VariableUpdateOptions) :
    (goCallByValue (VariablesCreate c) co).2 = co ∧
    (goCallByValue (VariablesUpdate c uid) uo).2 = uo ∧
    (co.valid = none → co.ID ≠ "" →
      ∀ ev ∈ (VariablesCreate c co).trace,
        ev.sentBody ≠ RequestBody.createOpts co) ∧
    (validStringID uid = true → uo.ID ≠ uid →
      ∀ ev ∈ (VariablesUpdate c uid uo).trace,
        ev.sentBody ≠ RequestBody.updateOpts uo) := by
  refine ⟨rfl, rfl, ?_, ?_⟩
  · intro hval hid ev hev heq
    have hbody := create_trace_body c co hval ev hev
    rw [heq] at hbody
    injection hbody with h2
    exact hid (congrArg VariableCreateOptions.ID h2)
  · intro hval hid ev hev heq
    have hbody := (update_trace_body c uid uo hval ev hev).2
    rw [heq] at hbody
    injection hbody with h2
    exact hid (congrArg VariableUpdateOptions.ID h2)

/-- C10 witness: a Create options value with pre-set ID `user-set-id` is
returned to the caller unchanged, and its exact value is never a sent
payload. -/
theorem c10_options_passed_by_value_witness :
    exCreateOpts.valid = none ∧ exCreateOpts.ID ≠ "" ∧
    (goCallByValue (VariablesCreate testClient) exCreateOpts).2 = exCreateOpts ∧
    (∀ ev ∈ (VariablesCreate testClient exCreateOpts).trace,
      ev.sentBody ≠ RequestBody.createOpts exCreateOpts) :=
  ⟨by decide, by decide,
    (c10_options_passed_by_value testClient exCreateOpts "var-1" exUpdateOpts).1,
    (c10_options_passed_by_value testClient exCreateOpts "var-1" exUpdateOpts).2.2.1
      (by decide) (by decide)⟩

end Tfe
